import Mathlib

/-!
Verification of the rule-based risk stratification and safety-guard subsystem
(`risk_engine.py` + `safety_guard.py`) of the diabetes/hypertension
clinical-decision-support repository.

Numeric clinical values (blood pressure, glucose, HbA1c, BMI, age) are
modelled as rationals `ℚ`; optional values as `Option ℚ`, where Python's
truthiness test `if x:` on a numeric value corresponds to `x` being present
and nonzero.  Free-text fields are Lean `String`s; Python substring tests
(`a in b`) are modelled by `strContains`.
-/

/-- Head-match test `headMatch needle hay`: the character list `needle` occurs at the very
start of `hay`. -/
def headMatch : List Char → List Char → Bool
  | [], _ => true
  | _ :: _, [] => false
  | c :: cs, d :: ds => c = d && headMatch cs ds

/-- Occurrence test `occursIn needle hay`: the character list `needle` occurs contiguously
somewhere in `hay` (an empty needle occurs in everything). -/
def occursIn : List Char → List Char → Bool
  | needle, [] => headMatch needle []
  | needle, h :: t => headMatch needle (h :: t) || occursIn needle t

/-- Python substring test: `strContains hay needle` is the Boolean value of
Python's `needle in hay`. -/
def strContains (hay needle : String) : Bool :=
  occursIn needle.data hay.data

/-- Python `str.lower()` (identity on the Chinese text used in the rules). -/
def lowerStr (s : String) : String :=
  ⟨s.data.map Char.toLower⟩

/-- Python `str.upper()`. -/
def upperStr (s : String) : String :=
  ⟨s.data.map Char.toUpper⟩

/-- Severity of a safety finding: `info`/`warning`/`critical` strings in the code. -/
inductive Severity
  | info
  | warning
  | critical
deriving DecidableEq, Repr, Fintype

/-- Risk level, totally ordered: 低危(low) < 中危(moderate) < 高危(high) < 很高危(veryHigh). -/
inductive RiskLevel
  | low
  | moderate
  | high
  | veryHigh
deriving DecidableEq, Repr, Fintype

/-- Ordinal index of a risk level, the position in the Python list
`risk_levels = ['低危', '中危', '高危', '很高危']`. -/
def RiskLevel.idx : RiskLevel → Nat
  | .low => 0
  | .moderate => 1
  | .high => 2
  | .veryHigh => 3

/-- Inverse of `RiskLevel.idx`: the Python expression `risk_levels[i]`. -/
def riskOfIdx : Nat → RiskLevel
  | 0 => .low
  | 1 => .moderate
  | 2 => .high
  | _ => .veryHigh

/-- Blood-pressure grade, the `bp_grade` strings of `_assess_hypertension`:
未知(unknown), 正常血压(normal), 正常高值(highNormal), 1/2/3级高血压. -/
inductive BPGrade
  | unknown
  | normal
  | highNormal
  | grade1
  | grade2
  | grade3
deriving DecidableEq, Repr, Fintype


/-- Chinese label of a blood-pressure grade, the exact strings stored in
`result['bp_grade']` by `_assess_hypertension`. -/
def BPGrade.label : BPGrade → String
  | .unknown => "未知"
  | .normal => "正常血压"
  | .highNormal => "正常高值"
  | .grade1 => "1级高血压"
  | .grade2 => "2级高血压"
  | .grade3 => "3级高血压"

/-- Glycemic control status, the `control_status` strings of `_assess_diabetes`:
未知(unknown), 控制良好(good), 控制一般(fair), 控制不佳(poor). -/
inductive ControlStatus
  | unknown
  | good
  | fair
  | poor
deriving DecidableEq, Repr, Fintype

/-- The rational 3.9 (hypoglycemia glucose threshold, `EMERGENCY_THRESHOLDS`),
written in normalized numerator/denominator form so the kernel can compute
comparisons against it. -/
def q3_9 : ℚ := ⟨39, 10, by decide, by decide⟩

/-- The rational 16.7 (DKA glucose threshold, `EMERGENCY_THRESHOLDS`). -/
def q16_7 : ℚ := ⟨167, 10, by decide, by decide⟩

/-- The rational 8.5 (HbA1c poor-control threshold in `_assess_diabetes`). -/
def q8_5 : ℚ := ⟨17, 2, by decide, by decide⟩

/-- Python truthiness of an optional numeric value: `if x:` is true iff the
value is present and nonzero. -/
def pyTruthy (x : Option ℚ) : Bool :=
  match x with
  | none => false
  | some v => v != 0

/-! ## Patient profile data model (input dictionaries) -/

/-- One entry of `profile['diagnoses']`; only `diagnosis_name` is read by the
engine and the guard. -/
structure Diagnosis where
  diagnosis_name : String
deriving DecidableEq, Repr

/-- One entry of `profile['medications']`; only `drug_name` and `drug_class`
are read. -/
structure Medication where
  drug_name : String
  drug_class : String
deriving DecidableEq, Repr

/-- Model of `profile['hypertension_assessment']`: the latest hypertension record. -/
structure HypertensionAssessment where
  sbp : Option ℚ
  dbp : Option ℚ
  risk_factors : String
  target_organs_damage : String
  clinical_conditions : String
deriving DecidableEq, Repr

/-- Model of `profile['diabetes_assessment']`: the latest diabetes record. -/
structure DiabetesAssessment where
  fasting_glucose : Option ℚ
  hba1c : Option ℚ
  insulin_usage : Bool
  insulin_type : String
  complications : String
deriving DecidableEq, Repr

/-- The patient profile dictionary.  A missing `age` defaults to 0
(`profile.get('age', 0)`) and a missing `gender` to the empty string, so both
are modelled as plain values. -/
structure PatientProfile where
  patient_id : String
  gender : String
  age : ℚ
  bmi : Option ℚ
  diagnoses : List Diagnosis
  medications : List Medication
  hypertension_assessment : Option HypertensionAssessment
  diabetes_assessment : Option DiabetesAssessment
deriving DecidableEq, Repr

/-! ## Output data model -/

/-- A safety finding / warning dictionary.  The shared keys `type` (here
`ftype`) and `severity` are always present; rule-specific keys are optional.
Free-text keys that no rule ever reads back (`message`, `reason`, `action`,
`evidence`, symptom lists, `considerations`, `drugs`, `risk`,
`symptoms_to_check`) are not modelled. -/
structure Finding where
  ftype : String
  severity : Severity
  drug : Option String := none
  drug_class : Option String := none
  contraindication : Option String := none
  alternative : Option String := none
  population : Option String := none
  requires_referral : Bool := false
  referral_department : Option String := none
deriving DecidableEq, Repr

/-- Result of `RiskEngine._assess_hypertension` (the `evaluation_logic`
free-text trace is not modelled). -/
structure HTRisk where
  bp_grade : BPGrade
  risk_level : RiskLevel
  risk_factors : List String
  target_organ_damage : List String
  clinical_conditions : List String
deriving DecidableEq, Repr

/-- Result of `RiskEngine._assess_diabetes` (the `evaluation_logic` trace is
not modelled). -/
structure DMRisk where
  control_status : ControlStatus
  risk_level : RiskLevel
  risk_factors : List String
  complications : List String
deriving DecidableEq, Repr

/-- Result of `RiskEngine._generate_follow_up_plan`.  `next_visit` is a day
count: the Python code stores `today + timedelta(weeks=w)` and we model the
current date `today` as a day number `now : Nat`. -/
structure FollowUpPlan where
  frequency : String
  next_visit : Nat
  monitoring_items : List String
  lifestyle_goals : List String
  medication_review : String
deriving DecidableEq, Repr

/-- One entry of the `recommendations` list of `_generate_recommendations`. -/
structure Recommendation where
  category : String
  content : String
  evidence_level : String
  source : String
  rationale : String
deriving DecidableEq, Repr

/-- Result of `RiskEngine.assess_patient`.  `assessment_time` is the `now`
day number standing for `datetime.now().isoformat()`.  The `warnings` key of
the Python dict is always left as the empty list by `assess_patient` and is
not modelled. -/
structure RiskAssessment where
  patient_id : String
  assessment_time : Nat
  hypertension_risk : Option HTRisk
  diabetes_risk : Option DMRisk
  overall_risk_level : RiskLevel
  risk_factors : List String
  follow_up_plan : FollowUpPlan
  recommendations : List Recommendation
deriving DecidableEq, Repr

/-- Result of `SafetyGuard.check_all`. -/
structure SafetyCheckResult where
  is_safe : Bool
  warnings : List Finding
  contraindications : List Finding
  interactions : List Finding
  emergency_alerts : List Finding
deriving DecidableEq, Repr

/-! ## Static configuration (`config.py`) -/

/-- One entry of `DRUG_CONTRAINDICATIONS`. -/
structure DrugClassInfo where
  drugs : List String
  contraindications : List String
  interactions : List String
deriving DecidableEq, Repr

def ACEIInfo : DrugClassInfo :=
  { drugs := ["依那普利", "贝那普利", "培哚普利", "雷米普利", "福辛普利"],
    contraindications := ["妊娠", "双侧肾动脉狭窄", "高钾血症", "血管性水肿史"],
    interactions := ["保钾利尿剂", "NSAIDs", "锂盐"] }

def ARBInfo : DrugClassInfo :=
  { drugs := ["缬沙坦", "厄贝沙坦", "氯沙坦", "替米沙坦", "坎地沙坦"],
    contraindications := ["妊娠", "双侧肾动脉狭窄", "高钾血症"],
    interactions := ["保钾利尿剂", "NSAIDs", "锂盐"] }

def CCBInfo : DrugClassInfo :=
  { drugs := ["氨氯地平", "硝苯地平", "非洛地平", "尼群地平"],
    contraindications := ["心源性休克", "严重主动脉瓣狭窄"],
    interactions := ["β受体阻滞剂"] }

def BetaBlockerInfo : DrugClassInfo :=
  { drugs := ["美托洛尔", "比索洛尔", "阿替洛尔", "普萘洛尔"],
    contraindications := ["支气管哮喘", "严重心动过缓", "二度以上房室传导阻滞"],
    interactions := ["非二氢吡啶类CCB", "胰岛素"] }

def DiureticInfo : DrugClassInfo :=
  { drugs := ["氢氯噻嗪", "呋塞米", "螺内酯", "吲达帕胺"],
    contraindications := ["严重肾功能不全", "电解质紊乱"],
    interactions := ["ACEI", "ARB", "锂盐"] }

/-- The `DRUG_CONTRAINDICATIONS` table of `config.py`, in dict order. -/
def DRUG_CONTRAINDICATIONS : List (String × DrugClassInfo) :=
  [("ACEI类", ACEIInfo), ("ARB类", ARBInfo), ("CCB类", CCBInfo),
   ("β受体阻滞剂", BetaBlockerInfo), ("利尿剂", DiureticInfo)]

/-- Threshold `EMERGENCY_THRESHOLDS['hypertensive_emergency']['sbp']`. -/
def emergencySbpThreshold : ℚ := 180

/-- Threshold `EMERGENCY_THRESHOLDS['hypertensive_emergency']['dbp']`. -/
def emergencyDbpThreshold : ℚ := 120

/-- Threshold `EMERGENCY_THRESHOLDS['hypoglycemia']['glucose']` = 3.9. -/
def hypoglycemiaThreshold : ℚ := q3_9

/-- Threshold `EMERGENCY_THRESHOLDS['diabetic_ketoacidosis']['glucose']` = 16.7. -/
def dkaThreshold : ℚ := q16_7

/-! ## RiskEngine (`risk_engine.py`) -/

/-- The blood-pressure grading ladder of `_assess_hypertension`
(`risk_engine.py` lines 83-92), evaluated top-down, first match wins. -/
def bpGrade (sbp dbp : ℚ) : BPGrade :=
  if sbp < 120 ∧ dbp < 80 then .normal
  else if sbp < 140 ∧ dbp < 90 then .highNormal
  else if sbp < 160 ∨ dbp < 100 then .grade1
  else if sbp < 180 ∨ dbp < 110 then .grade2
  else .grade3

/-- The fixed risk-factor keyword list scanned against the free-text
`risk_factors` field. -/
def htFactorKeywords : List String :=
  ["吸烟", "血脂异常", "糖尿病", "肥胖", "高龄", "家族史"]

/-- Target-organ-damage keywords. -/
def todKeywords : List String :=
  ["左心室肥厚", "颈动脉斑块", "肾功能异常", "蛋白尿"]

/-- Clinical-condition keywords. -/
def ccKeywords : List String :=
  ["冠心病", "脑卒中", "慢性肾病", "心力衰竭", "外周血管病"]

/-- Demographic risk factors: age (≥55 male / ≥65 female) and obesity
(`if bmi and bmi >= 28`), in the order the code appends them. -/
def demographicFactors (p : PatientProfile) : List String :=
  (if (p.gender = "男" ∧ p.age ≥ 55) ∨ (p.gender = "女" ∧ p.age ≥ 65)
   then ["年龄"] else [])
  ++ (if pyTruthy p.bmi ∧ p.bmi.getD 0 ≥ 28 then ["肥胖"] else [])

/-- Scan of the free-text `risk_factors` field (`if risk_factors_str:` then
append each matching keyword not already collected). -/
def scanFactorText (text : String) (base : List String) : List String :=
  if text = "" then base
  else htFactorKeywords.foldl
    (fun acc f => if strContains text f ∧ ¬ acc.contains f then acc ++ [f] else acc)
    base

/-- Keyword scan guarded by `if text and text != '无':`, used for
target-organ damage, clinical conditions and diabetes complications. -/
def scanGuardedKeywords (text : String) (kws : List String) : List String :=
  if text = "" ∨ text = "无" then []
  else kws.filter (fun k => strContains text k)

/-- The hypertension risk-stratification decision of `_assess_hypertension`
(`risk_engine.py` lines 131-160), as a function of the blood-pressure grade,
the number of collected risk factors, and the presence of target-organ
damage / clinical conditions. -/
def htRiskLevel (grade : BPGrade) (riskFactorCount : Nat)
    (hasTargetDamage hasClinicalCond : Bool) : RiskLevel :=
  if hasClinicalCond then .veryHigh
  else if hasTargetDamage ∨ riskFactorCount ≥ 3 then
    (if grade = .grade2 ∨ grade = .grade3 then .veryHigh else .high)
  else if riskFactorCount ≥ 1 then
    (if grade = .grade3 then .high else if grade = .grade2 then .moderate else .moderate)
  else
    (if grade = .grade3 then .high else if grade = .grade2 then .moderate else .low)

/-- The default result dict of `_assess_hypertension`, returned unchanged
when `sbp is None or dbp is None`. -/
def htDefaultResult : HTRisk :=
  { bp_grade := .unknown, risk_level := .low, risk_factors := [],
    target_organ_damage := [], clinical_conditions := [] }

/-- Model of `RiskEngine._assess_hypertension`. -/
def assessHypertension (ha : HypertensionAssessment) (p : PatientProfile) : HTRisk :=
  match ha.sbp, ha.dbp with
  | some sbp, some dbp =>
    let grade := bpGrade sbp dbp
    let factors := scanFactorText ha.risk_factors (demographicFactors p)
    let tod := scanGuardedKeywords ha.target_organs_damage todKeywords
    let cc := scanGuardedKeywords ha.clinical_conditions ccKeywords
    { bp_grade := grade,
      risk_level := htRiskLevel grade factors.length (!tod.isEmpty) (!cc.isEmpty),
      risk_factors := factors,
      target_organ_damage := tod,
      clinical_conditions := cc }
  | _, _ => htDefaultResult

/-- Diabetes complication keywords. -/
def dmComplicationKeywords : List String :=
  ["视网膜病变", "周围神经病变", "肾病", "足病", "心血管病变"]

/-- Model of `RiskEngine._assess_diabetes`. -/
def assessDiabetes (da : DiabetesAssessment) : DMRisk :=
  let controlPair : ControlStatus × RiskLevel :=
    if pyTruthy da.hba1c then
      (if da.hba1c.getD 0 < 7 then (.good, .low)
       else if da.hba1c.getD 0 < q8_5 then (.fair, .low)
       else (.poor, .high))
    else (.unknown, .low)
  let glucoseFactors :=
    if pyTruthy da.fasting_glucose ∧ da.fasting_glucose.getD 0 ≥ 10
    then ["空腹血糖过高"] else []
  let comps := scanGuardedKeywords da.complications dmComplicationKeywords
  { control_status := controlPair.1,
    risk_level := if comps ≠ [] then .high else controlPair.2,
    risk_factors := glucoseFactors ++ (if da.insulin_usage then ["需要胰岛素治疗"] else []),
    complications := comps }

/-- The overall-risk aggregation of `_calculate_overall_risk`
(`risk_engine.py` lines 214-246): `max_level` is the maximum of the present
sub-assessment levels (0 when absent), raised to at least 2 (高危) when both
sub-assessments are present, then looked up in
`risk_levels = ['低危','中危','高危','很高危']`. -/
def calculateOverallLevel (htr : Option HTRisk) (dmr : Option DMRisk) : RiskLevel :=
  let maxLevel :=
    max (match htr with | some h => h.risk_level.idx | none => 0)
        (match dmr with | some d => d.risk_level.idx | none => 0)
  let maxLevel := if htr.isSome ∧ dmr.isSome ∧ maxLevel < 2 then 2 else maxLevel
  riskOfIdx maxLevel

/-- The `risk_factors` aggregation of `_calculate_overall_risk`: extend with
each present sub-assessment's factors, append the comorbidity factor when
both are present, append obesity when `bmi and bmi >= 28` and not already
present, then deduplicate (`list(set(...))`, order not significant; modelled
as `List.dedup`). -/
def overallRiskFactors (htr : Option HTRisk) (dmr : Option DMRisk)
    (p : PatientProfile) : List String :=
  let fs := (match htr with | some h => h.risk_factors | none => [])
         ++ (match dmr with | some d => d.risk_factors | none => [])
         ++ (if htr.isSome ∧ dmr.isSome then ["高血压合并糖尿病"] else [])
  let fs := fs ++ (if (pyTruthy p.bmi ∧ p.bmi.getD 0 ≥ 28) ∧ ¬ fs.contains "肥胖"
                   then ["肥胖"] else [])
  fs.dedup

/-- The constant `lifestyle_goals` list of `_generate_follow_up_plan`. -/
def lifestyleGoals : List String :=
  ["低盐低脂饮食(每日盐<6g)", "规律运动(每周≥150分钟中等强度)",
   "控制体重(BMI<24)", "戒烟限酒", "保持良好睡眠"]

/-- Model of `RiskEngine._generate_follow_up_plan`; `now` is today's day number, and
`timedelta(weeks=w)` becomes `7*w` days. -/
def generateFollowUpPlan (riskLevel : RiskLevel) (now : Nat) : FollowUpPlan :=
  match riskLevel with
  | .veryHigh =>
    { frequency := "每2周随访", next_visit := now + 14,
      monitoring_items := ["血压(每日)", "血糖(每日)", "症状变化", "用药依从性"],
      lifestyle_goals := lifestyleGoals,
      medication_review := "2周后复诊评估疗效，必要时调整方案" }
  | .high =>
    { frequency := "每月随访", next_visit := now + 28,
      monitoring_items := ["血压(每周3次)", "血糖(每周)", "体重", "用药依从性"],
      lifestyle_goals := lifestyleGoals,
      medication_review := "1个月后复诊，评估血压/血糖达标情况" }
  | .moderate =>
    { frequency := "每2月随访", next_visit := now + 56,
      monitoring_items := ["血压(每周)", "血糖(每2周)", "体重", "生活方式执行"],
      lifestyle_goals := lifestyleGoals,
      medication_review := "2个月后复诊，评估控制效果" }
  | .low =>
    { frequency := "每3月随访", next_visit := now + 84,
      monitoring_items := ["血压(每2周)", "血糖(每月)", "体重"],
      lifestyle_goals := lifestyleGoals,
      medication_review := "3个月后常规复诊" }

/-- The lifestyle-intervention recommendation always appended last by
`_generate_recommendations`. -/
def lifestyleRecommendation : Recommendation :=
  { category := "生活方式干预",
    content := "控制饮食（低盐低脂低糖）、规律运动、控制体重、戒烟限酒、保持良好心态和睡眠",
    evidence_level := "ⅠA", source := "各指南一致推荐",
    rationale := "生活方式干预是治疗的基础" }

/-- Model of `RiskEngine._generate_recommendations`, as a function of the two
sub-assessment results (the only parts of the assessment it reads). -/
def generateRecommendations (htr : Option HTRisk) (dmr : Option DMRisk) :
    List Recommendation :=
  (match htr with
   | some ht =>
     if ht.bp_grade = .grade2 ∨ ht.bp_grade = .grade3 then
       [{ category := "降压治疗",
          content := "建议起始联合治疗，推荐CCB+ACEI/ARB或CCB+利尿剂",
          evidence_level := "ⅠA", source := "中国高血压防治指南2023",
          rationale := "血压分级: " ++ ht.bp_grade.label ++ "，需积极降压" }]
     else if ht.bp_grade = .grade1 then
       [{ category := "降压治疗",
          content := "建议起始单药治疗，首选CCB、ACEI/ARB或利尿剂",
          evidence_level := "ⅠA", source := "中国高血压防治指南2023",
          rationale := "血压分级: " ++ ht.bp_grade.label ++ "，可先尝试单药治疗" }]
     else []
   | none => [])
  ++ (match dmr with
      | some dm =>
        if dm.control_status = .poor then
          [{ category := "降糖治疗",
             content := "HbA1c≥8.5%，建议强化治疗，可考虑起始胰岛素或联合多种口服药",
             evidence_level := "ⅠA", source := "中国2型糖尿病防治指南2020",
             rationale := "HbA1c控制不佳，需加强降糖治疗" }]
        else if dm.control_status = .fair then
          [{ category := "降糖治疗",
             content := "血糖控制一般，建议优化现有方案，可联合DPP-4抑制剂或SGLT-2抑制剂",
             evidence_level := "ⅠA", source := "中国2型糖尿病防治指南2020",
             rationale := "HbA1c未达标，需优化治疗" }]
        else []
      | none => [])
  ++ (if htr.isSome ∧ dmr.isSome then
        [{ category := "综合管理",
           content := "高血压合并糖尿病，优先选择ACEI/ARB类降压药（兼具心肾保护作用），降糖药优先选择有心血管获益证据的SGLT-2抑制剂或GLP-1受体激动剂",
           evidence_level := "ⅠA", source := "高血压/糖尿病联合指南",
           rationale := "多重危险因素并存，需综合管理" }]
      else [])
  ++ [lifestyleRecommendation]

/-- Model of `RiskEngine.assess_patient`.  The wall-clock reading `datetime.now()` is
passed in as the day number `now`.  Presence of a sub-assessment record is
`Option.isSome` (a present record is modelled as non-empty, so Python's
truthiness test `if ha:` coincides with presence). -/
def assessPatient (p : PatientProfile) (now : Nat) : RiskAssessment :=
  let htr := p.hypertension_assessment.map (fun ha => assessHypertension ha p)
  let dmr := p.diabetes_assessment.map assessDiabetes
  let overall := calculateOverallLevel htr dmr
  { patient_id := p.patient_id,
    assessment_time := now,
    hypertension_risk := htr,
    diabetes_risk := dmr,
    overall_risk_level := overall,
    risk_factors := overallRiskFactors htr dmr p,
    follow_up_plan := generateFollowUpPlan overall now,
    recommendations := generateRecommendations htr dmr }

/-- Model of `RiskEngine.check_emergency`: the parallel threshold scan.  Unlike the
SafetyGuard variant, it appends both the sbp-based and the dbp-based warning
when both thresholds are crossed. -/
def checkEmergency (p : PatientProfile) : List Finding :=
  (match p.hypertension_assessment with
   | some ha =>
     (if pyTruthy ha.sbp ∧ ha.sbp.getD 0 ≥ emergencySbpThreshold then
        [{ ftype := "hypertensive_emergency", severity := .critical }] else [])
     ++ (if pyTruthy ha.dbp ∧ ha.dbp.getD 0 ≥ emergencyDbpThreshold then
        [{ ftype := "hypertensive_emergency", severity := .critical }] else [])
   | none => [])
  ++ (match p.diabetes_assessment with
      | some da =>
        (if pyTruthy da.fasting_glucose ∧ da.fasting_glucose.getD 0 < hypoglycemiaThreshold then
           [{ ftype := "hypoglycemia", severity := .critical }] else [])
        ++ (if pyTruthy da.fasting_glucose ∧ da.fasting_glucose.getD 0 > dkaThreshold then
           [{ ftype := "dka_risk", severity := .warning }] else [])
      | none => [])

/-! ## SafetyGuard (`safety_guard.py`) -/

/-- Pregnancy keywords scanned against lowered diagnosis names. -/
def pregnancyKeywords : List String :=
  ["妊娠", "孕", "怀孕", "pregnancy", "pregnant", "产前", "产后"]

/-- Model of `SafetyGuard._is_pregnant`: female and some diagnosis name containing a
pregnancy keyword.  (The fertile-age heuristic in the source computes nothing
observable and is dead code.) -/
def isPregnant (p : PatientProfile) : Bool :=
  p.gender = "女" ∧
    p.diagnoses.any (fun d =>
      pregnancyKeywords.any (fun k => strContains (lowerStr d.diagnosis_name) k))

/-- Lowered `DRUG_CONTRAINDICATIONS['ACEI类']['drugs']` membership or the
substring heuristics `'普利' in med_name or 'pril' in med_name`. -/
def aceiNameMatch (medName : String) : Bool :=
  (ACEIInfo.drugs.map lowerStr).contains medName ∨
    ["普利", "pril"].any (fun a => strContains medName a)

/-- Lowered ARB drug-list membership or the `'沙坦'`/`'sartan'` heuristics. -/
def arbNameMatch (medName : String) : Bool :=
  (ARBInfo.drugs.map lowerStr).contains medName ∨
    ["沙坦", "sartan"].any (fun a => strContains medName a)

/-- The fixed alternative-drug suggestion attached to every pregnancy
contraindication finding. -/
def pregnancyAlternative : String := "建议使用甲基多巴、拉贝洛尔或硝苯地平缓释片"

/-- The per-medication ACEI pregnancy contraindication finding. -/
def pregnancyAceiFinding (medName : String) : Finding :=
  { ftype := "pregnancy_contraindication", severity := .critical,
    drug := some medName, drug_class := some "ACEI类",
    alternative := some pregnancyAlternative }

/-- The per-medication ARB pregnancy contraindication finding. -/
def pregnancyArbFinding (medName : String) : Finding :=
  { ftype := "pregnancy_contraindication", severity := .critical,
    drug := some medName, drug_class := some "ARB类",
    alternative := some pregnancyAlternative }

/-- The class-level ACEI/ARB pregnancy finding (no `drug` key). -/
def pregnancyClassFinding : Finding :=
  { ftype := "pregnancy_contraindication", severity := .critical,
    drug_class := some "ACEI/ARB", alternative := some pregnancyAlternative }

/-- The finding emitted when a recommendation's content mentions ACEI/ARB. -/
def recommendationContraFinding : Finding :=
  { ftype := "recommendation_contraindication", severity := .critical }

/-- Model of `SafetyGuard._check_pregnancy_contraindications`.  The `recommendations`
argument models Python's optional list; `None` and `[]` behave identically
(`if recommendations:`), so it is a plain list. -/
def checkPregnancyContraindications (p : PatientProfile)
    (recommendations : List Recommendation) : List Finding :=
  if ¬ isPregnant p then []
  else
    let medNames := p.medications.map (fun m => lowerStr m.drug_name)
    let medClasses := p.medications.map (fun m => upperStr m.drug_class)
    let perMed := medNames.flatMap (fun n =>
      (if aceiNameMatch n then [pregnancyAceiFinding n] else [])
      ++ (if arbNameMatch n then [pregnancyArbFinding n] else []))
    let classWarnings :=
      if (medClasses.contains "ACEI" ∨ medClasses.contains "ARB")
          ∧ ¬ perMed.any (fun w =>
              w.drug_class = some "ACEI类" ∨ w.drug_class = some "ARB类")
      then [pregnancyClassFinding] else []
    let recWarnings := recommendations.flatMap (fun rec =>
      let content := lowerStr rec.content
      if strContains content "acei" ∨ strContains content "arb"
          ∨ strContains content "普利" ∨ strContains content "沙坦"
      then [recommendationContraFinding] else [])
    perMed ++ classWarnings ++ recWarnings

/-- The sbp-based hypertensive-emergency alert
(`_check_hypertensive_emergency`, first branch). -/
def sbpEmergencyAlert : Finding :=
  { ftype := "hypertensive_emergency", severity := .critical,
    requires_referral := true, referral_department := some "急诊科/心内科" }

/-- The dbp-based hypertensive-emergency alert (second branch; it carries no
`referral_department` key). -/
def dbpEmergencyAlert : Finding :=
  { ftype := "hypertensive_emergency", severity := .critical,
    requires_referral := true }

/-- Model of `SafetyGuard._check_hypertensive_emergency`: the dbp alert is appended
only when no `hypertensive_emergency` alert has been emitted already. -/
def checkHypertensiveEmergency (p : PatientProfile) : List Finding :=
  match p.hypertension_assessment with
  | none => []
  | some ha =>
    let alerts :=
      if pyTruthy ha.sbp ∧ ha.sbp.getD 0 ≥ emergencySbpThreshold
      then [sbpEmergencyAlert] else []
    alerts ++
      (if (pyTruthy ha.dbp ∧ ha.dbp.getD 0 ≥ emergencyDbpThreshold)
          ∧ ¬ alerts.any (fun a => a.ftype = "hypertensive_emergency")
       then [dbpEmergencyAlert] else [])

/-- Model of `SafetyGuard._check_drug_contraindications`: for each medication and each
configured drug class whose lowered drug list contains the lowered name or
whose class name is a substring of the medication's class, every configured
contraindication is matched bidirectionally (substring either way) against
every lowered diagnosis name. -/
def checkDrugContraindications (p : PatientProfile) : List Finding :=
  if p.medications = [] then []
  else
    let diagNames := p.diagnoses.map (fun d => lowerStr d.diagnosis_name)
    p.medications.flatMap (fun med =>
      DRUG_CONTRAINDICATIONS.flatMap (fun ci =>
        if (ci.2.drugs.map lowerStr).contains (lowerStr med.drug_name)
            ∨ strContains med.drug_class ci.1
        then ci.2.contraindications.flatMap (fun contra =>
          diagNames.flatMap (fun diagName =>
            if strContains diagName (lowerStr contra)
                ∨ strContains (lowerStr contra) diagName
            then [{ ftype := "drug_contraindication", severity := .warning,
                    drug := some med.drug_name, drug_class := some ci.1,
                    contraindication := some contra }]
            else []))
        else []))

/-- The five fixed interacting-pair rules of `_check_drug_interactions`. -/
def interactionPairs : List (List String × List String) :=
  [(["ACEI", "ARB"], ["保钾利尿剂", "螺内酯"]),
   (["β受体阻滞剂"], ["非二氢吡啶类CCB", "地尔硫䓬", "维拉帕米"]),
   (["ACEI", "ARB"], ["NSAIDs", "布洛芬", "双氯芬酸"]),
   (["利尿剂"], ["锂盐"]),
   (["β受体阻滞剂"], ["胰岛素"])]

/-- Model of `SafetyGuard._check_drug_interactions`: only with ≥2 medications; each
rule matches by substring presence of some member of each group in the
space-joined concatenation of all medication classes and names. -/
def checkDrugInteractions (p : PatientProfile) : List Finding :=
  if p.medications.length < 2 then []
  else
    let joined := String.intercalate " "
      (p.medications.map (fun m => m.drug_class) ++ p.medications.map (fun m => m.drug_name))
    interactionPairs.flatMap (fun pair =>
      if pair.1.any (fun g => strContains joined g)
          ∧ pair.2.any (fun g => strContains joined g)
      then [{ ftype := "drug_interaction", severity := .warning }]
      else [])

/-- The elderly informational caution (`age >= 65`). -/
def elderlyFinding : Finding :=
  { ftype := "special_population", severity := .info, population := some "老年患者" }

/-- The renal-insufficiency warning bundle. -/
def renalFinding : Finding :=
  { ftype := "special_population", severity := .warning, population := some "肾功能不全" }

/-- The renal diagnosis test of `_check_special_population`: the lowered name
contains `肾` and one of `功能不全`/`衰竭`/`病`. -/
def renalDiagMatch (diagName : String) : Bool :=
  strContains diagName "肾" ∧
    (strContains diagName "功能不全" ∨ strContains diagName "衰竭"
      ∨ strContains diagName "病")

/-- Model of `SafetyGuard._check_special_population`: the loop over diagnoses `break`s
after the first renal match, so at most one renal finding is emitted. -/
def checkSpecialPopulation (p : PatientProfile) : List Finding :=
  (if p.age ≥ 65 then [elderlyFinding] else [])
  ++ (if p.diagnoses.any (fun d => renalDiagMatch (lowerStr d.diagnosis_name))
      then [renalFinding] else [])

/-- The critical hypoglycemia alert of `_check_glucose_emergency`. -/
def hypoglycemiaFinding : Finding :=
  { ftype := "hypoglycemia", severity := .critical }

/-- The warning-severity severe-hyperglycemia (DKA-risk) alert. -/
def severeHyperglycemiaFinding : Finding :=
  { ftype := "severe_hyperglycemia", severity := .warning }

/-- Model of `SafetyGuard._check_glucose_emergency`: both threshold tests guard on the
truthiness of `fasting_glucose` (`if fasting_glucose and ...`). -/
def checkGlucoseEmergency (p : PatientProfile) : List Finding :=
  match p.diabetes_assessment with
  | none => []
  | some da =>
    (if pyTruthy da.fasting_glucose ∧ da.fasting_glucose.getD 0 < q3_9
     then [hypoglycemiaFinding] else [])
    ++ (if pyTruthy da.fasting_glucose ∧ da.fasting_glucose.getD 0 > q16_7
        then [severeHyperglycemiaFinding] else [])

/-- Model of `SafetyGuard.check_all`: runs the six checks, merges the four buckets,
and sets `is_safe` iff the concatenation contains no critical finding. -/
def checkAll (p : PatientProfile) (recommendations : List Recommendation) :
    SafetyCheckResult :=
  let contras := checkPregnancyContraindications p recommendations
              ++ checkDrugContraindications p
  let emers := checkHypertensiveEmergency p ++ checkGlucoseEmergency p
  let warns := checkSpecialPopulation p
  let inters := checkDrugInteractions p
  let allWarnings := warns ++ contras ++ inters ++ emers
  { is_safe := allWarnings.countP (fun w => w.severity = .critical) = 0,
    warnings := warns,
    contraindications := contras,
    interactions := inters,
    emergency_alerts := emers }

/-! ## Spec-side definitions and helpers for the claims -/

/-- Rule 1 of the spec's grading ladder: `sbp<120 and dbp<80`. -/
def bpRule1 (s d : ℚ) : Prop := s < 120 ∧ d < 80

/-- Rule 2: `sbp<140 and dbp<90`. -/
def bpRule2 (s d : ℚ) : Prop := s < 140 ∧ d < 90

/-- Rule 3: `sbp<160 OR dbp<100`. -/
def bpRule3 (s d : ℚ) : Prop := s < 160 ∨ d < 100

/-- Rule 4: `sbp<180 OR dbp<110`. -/
def bpRule4 (s d : ℚ) : Prop := s < 180 ∨ d < 110

/-- The spec's 5-rule ladder with first-match-wins semantics, stated
relationally: a grade is assigned exactly when its rule fires and no earlier
rule does (rule 5 is the catch-all `otherwise`). -/
def bpGradeSpec (s d : ℚ) : BPGrade → Prop
  | .normal => bpRule1 s d
  | .highNormal => ¬ bpRule1 s d ∧ bpRule2 s d
  | .grade1 => ¬ bpRule1 s d ∧ ¬ bpRule2 s d ∧ bpRule3 s d
  | .grade2 => ¬ bpRule1 s d ∧ ¬ bpRule2 s d ∧ ¬ bpRule3 s d ∧ bpRule4 s d
  | .grade3 => ¬ bpRule1 s d ∧ ¬ bpRule2 s d ∧ ¬ bpRule3 s d ∧ ¬ bpRule4 s d
  | .unknown => False

/-- Erase the embedded date from a follow-up plan. -/
def stripPlanTime (plan : FollowUpPlan) : FollowUpPlan :=
  { plan with next_visit := 0 }

/-- Erase the wall-clock fields (`assessment_time` and the plan's
`next_visit`) from a risk assessment. -/
def stripTime (a : RiskAssessment) : RiskAssessment :=
  { a with assessment_time := 0,
           follow_up_plan := stripPlanTime a.follow_up_plan }

/-- The §8 scenario profile: sbp=185, dbp=95, and no other data. -/
def pSbp185 : PatientProfile :=
  { patient_id := "scenario-bp", gender := "", age := 0, bmi := none,
    diagnoses := [], medications := [],
    hypertension_assessment := some
      { sbp := some 185, dbp := some 95, risk_factors := "",
        target_organs_damage := "", clinical_conditions := "" },
    diabetes_assessment := none }

/-- The §8 pregnancy scenario profile: female, a diagnosis containing 妊娠,
and the ACEI medication 依那普利. -/
def pPregnancy : PatientProfile :=
  { patient_id := "scenario-preg", gender := "女", age := 30, bmi := none,
    diagnoses := [{ diagnosis_name := "妊娠期高血压" }],
    medications := [{ drug_name := "依那普利", drug_class := "ACEI" }],
    hypertension_assessment := none, diabetes_assessment := none }

/-- A hypertension record with both fields absent. -/
def haEmptyRecord : HypertensionAssessment :=
  { sbp := none, dbp := none, risk_factors := "",
    target_organs_damage := "", clinical_conditions := "" }

/-- A diabetes record with all optional fields absent. -/
def daEmptyRecord : DiabetesAssessment :=
  { fasting_glucose := none, hba1c := none, insulin_usage := false,
    insulin_type := "", complications := "" }

/-- A profile with no data at all. -/
def pEmpty : PatientProfile :=
  { patient_id := "empty", gender := "", age := 0, bmi := none,
    diagnoses := [], medications := [],
    hypertension_assessment := none, diabetes_assessment := none }

/-- A profile carrying both (otherwise empty) assessment records. -/
def pBoth : PatientProfile :=
  { pEmpty with
    patient_id := "both"
    hypertension_assessment := some haEmptyRecord
    diabetes_assessment := some daEmptyRecord }

/-- A profile with sbp=190 and dbp=125: both emergency thresholds crossed. -/
def pBothThresholds : PatientProfile :=
  { pEmpty with
    patient_id := "both-thresholds"
    hypertension_assessment := some
      { haEmptyRecord with sbp := some 190, dbp := some 125 } }

/-- A diabetes record whose fasting glucose reads exactly 0. -/
def daZeroGlucose : DiabetesAssessment :=
  { daEmptyRecord with fasting_glucose := some 0 }

/-- A profile whose diabetes record has fasting_glucose = 0. -/
def pZeroGlucose : PatientProfile :=
  { pEmpty with
    patient_id := "zero-glucose"
    diabetes_assessment := some daZeroGlucose }

/-! ## Claim theorems -/

theorem q3_9_eq : q3_9 = 39 / 10 := by
  rw [q3_9, Rat.mk'_eq_divInt, Rat.divInt_eq_div]; norm_num

theorem q16_7_eq : q16_7 = 167 / 10 := by
  rw [q16_7, Rat.mk'_eq_divInt, Rat.divInt_eq_div]; norm_num

theorem q8_5_eq : q8_5 = 17 / 2 := by
  rw [q8_5, Rat.mk'_eq_divInt, Rat.divInt_eq_div]; norm_num

/-- C1 counterexample: on the profile with sbp=185, dbp=95 and no other
data, the code computes BP grade = 1级高血压 (因为 dbp=95<100 fires the OR
rule 3), not 3级高血压, and hypertension risk_level = 低危, not 高危, so the
claim as stated is false. -/
theorem scenario_sbp185_dbp95_cex :
    (assessPatient pSbp185 0).hypertension_risk.map HTRisk.bp_grade
        ≠ some BPGrade.grade3
    ∧ (assessPatient pSbp185 0).hypertension_risk.map HTRisk.risk_level
        ≠ some RiskLevel.high := by
  constructor <;> decide

/-- C1 (amended): for the profile with sbp=185, dbp=95 and no other data,
`SafetyGuard.check_all` emits a hypertensive-emergency alert with severity
critical, `RiskEngine.assess_patient` computes BP grade = 1级高血压 (the
`sbp<160 or dbp<100` rule fires since dbp=95<100), and the hypertension
sub-assessment's risk_level = 低危. -/
theorem scenario_sbp185_dbp95_amended :
    ((checkAll pSbp185 []).emergency_alerts.any fun a =>
        a.ftype = "hypertensive_emergency" ∧ a.severity = Severity.critical) = true
    ∧ (assessPatient pSbp185 0).hypertension_risk.map HTRisk.bp_grade
        = some BPGrade.grade1
    ∧ (assessPatient pSbp185 0).hypertension_risk.map HTRisk.risk_level
        = some RiskLevel.low := by
  refine ⟨by decide, by decide, by decide⟩

/-- C3: `check_all` reports `is_safe` exactly when none of the four output
buckets contains a finding of severity critical. -/
theorem is_safe_iff_no_critical (p : PatientProfile) (recs : List Recommendation) :
    (checkAll p recs).is_safe = true ↔
      ((checkAll p recs).warnings.countP (fun w => w.severity = Severity.critical) = 0
       ∧ (checkAll p recs).contraindications.countP (fun w => w.severity = Severity.critical) = 0
       ∧ (checkAll p recs).interactions.countP (fun w => w.severity = Severity.critical) = 0
       ∧ (checkAll p recs).emergency_alerts.countP (fun w => w.severity = Severity.critical) = 0) := by
  simp only [checkAll, List.countP_append, decide_eq_true_eq]
  omega

theorem riskOfIdx_idx (n : Nat) : (riskOfIdx n).idx = min n 3 := by
  rcases n with _ | _ | _ | n <;> simp [riskOfIdx, RiskLevel.idx]

theorem idx_le_three (r : RiskLevel) : r.idx ≤ 3 := by
  cases r <;> simp [RiskLevel.idx]

/-- When both sub-assessments are present, the aggregated level is the
maximum of the sub-levels raised to at least index 2. -/
theorem overallLevel_both (x : HTRisk) (y : DMRisk) :
    calculateOverallLevel (some x) (some y)
      = riskOfIdx (max 2 (max x.risk_level.idx y.risk_level.idx)) := by
  cases hx : x.risk_level <;> cases hy : y.risk_level <;>
    simp [calculateOverallLevel, hx, hy, RiskLevel.idx, riskOfIdx]

/-- C4: for all sbp/dbp the grading of `_assess_hypertension` is total and
unambiguous under first-match semantics: the computed grade satisfies the
spec's 5-rule ladder relation, and any grade satisfying it equals the
computed one. -/
theorem bp_grading_first_match (s d : ℚ) :
    bpGradeSpec s d (bpGrade s d) ∧ ∀ g, bpGradeSpec s d g → g = bpGrade s d := by
  have key : ∀ g, bpGradeSpec s d g ↔ g = bpGrade s d := by
    intro g
    unfold bpGrade
    split_ifs with h1 h2 h3 h4 <;>
      cases g <;>
        simp_all [bpGradeSpec, bpRule1, bpRule2, bpRule3, bpRule4]
  exact ⟨(key _).mpr rfl, fun g hg => (key g).mp hg⟩

/-- C4 witness: the ladder relation at sbp=130, dbp=85 forces 正常高值. -/
theorem bp_grading_first_match_witness :
    BPGrade.highNormal = bpGrade 130 85 :=
  (bp_grading_first_match 130 85).2 BPGrade.highNormal
    (by unfold bpGradeSpec bpRule1 bpRule2; norm_num)

/-- C2: whenever both assessment records are present, the overall risk level
of `assess_patient` is at least 高危 and at least each sub-assessment's
level (order 低危<中危<高危<很高危 by `RiskLevel.idx`). -/
theorem comorbidity_overall_at_least_high (p : PatientProfile) (now : Nat)
    (ha : HypertensionAssessment) (da : DiabetesAssessment)
    (hha : p.hypertension_assessment = some ha)
    (hda : p.diabetes_assessment = some da) :
    RiskLevel.high.idx ≤ (assessPatient p now).overall_risk_level.idx
    ∧ (assessHypertension ha p).risk_level.idx
        ≤ (assessPatient p now).overall_risk_level.idx
    ∧ (assessDiabetes da).risk_level.idx
        ≤ (assessPatient p now).overall_risk_level.idx := by
  have hover : (assessPatient p now).overall_risk_level
      = riskOfIdx (max 2 (max (assessHypertension ha p).risk_level.idx
          (assessDiabetes da).risk_level.idx)) := by
    simp [assessPatient, hha, hda, overallLevel_both]
  have hx := idx_le_three (assessHypertension ha p).risk_level
  have hy := idx_le_three (assessDiabetes da).risk_level
  rw [hover, riskOfIdx_idx]
  have h2 : RiskLevel.high.idx = 2 := rfl
  refine ⟨?_, ?_, ?_⟩ <;> omega

/-- C2 witness: the comorbidity theorem applied to the profile carrying two
empty assessment records. -/
theorem comorbidity_overall_at_least_high_witness :
    RiskLevel.high.idx ≤ (assessPatient pBoth 0).overall_risk_level.idx :=
  (comorbidity_overall_at_least_high pBoth 0 haEmptyRecord daEmptyRecord rfl rfl).1

/-- The risk-stratification level of `_assess_hypertension` is monotone in
the number of collected risk factors (grade and organ-damage flags fixed). -/
theorem htRiskLevel_mono (g : BPGrade) (tod cc : Bool) {m n : Nat} (hmn : m ≤ n) :
    (htRiskLevel g m tod cc).idx ≤ (htRiskLevel g n tod cc).idx := by
  unfold htRiskLevel
  by_cases hcc : cc = true
  · simp [hcc]
  · by_cases htod : tod = true
    · simp [hcc, htod]
    · by_cases hm3 : m ≥ 3
      · have hn3 : n ≥ 3 := le_trans hm3 hmn
        simp [hcc, htod, hm3, hn3]
      · by_cases hn3 : n ≥ 3
        · by_cases hm1 : m ≥ 1
          · simp [hcc, htod, hm3, hn3, hm1]
            cases g <;> simp [RiskLevel.idx]
          · simp [hcc, htod, hm3, hn3, hm1]
            cases g <;> simp [RiskLevel.idx]
        · by_cases hm1 : m ≥ 1
          · have hn1 : n ≥ 1 := le_trans hm1 hmn
            simp [hcc, htod, hm3, hn3, hm1, hn1]
          · by_cases hn1 : n ≥ 1
            · simp [hcc, htod, hm3, hn3, hm1, hn1]
              cases g <;> simp [RiskLevel.idx]
            · simp [hcc, htod, hm3, hn3, hm1, hn1]

/-- Aggregation is monotone in the hypertension sub-level. -/
theorem overall_mono_left (x1 x2 : HTRisk) (y : Option DMRisk)
    (h : x1.risk_level.idx ≤ x2.risk_level.idx) :
    (calculateOverallLevel (some x1) y).idx ≤ (calculateOverallLevel (some x2) y).idx := by
  rcases y with _ | y
  · cases h1 : x1.risk_level <;> cases h2 : x2.risk_level <;>
      simp_all [calculateOverallLevel, RiskLevel.idx, riskOfIdx]
  · rw [overallLevel_both, overallLevel_both, riskOfIdx_idx, riskOfIdx_idx]
    omega

/-- Aggregation is monotone in the diabetes sub-level. -/
theorem overall_mono_right (x : Option HTRisk) (y1 y2 : DMRisk)
    (h : y1.risk_level.idx ≤ y2.risk_level.idx) :
    (calculateOverallLevel x (some y1)).idx ≤ (calculateOverallLevel x (some y2)).idx := by
  rcases x with _ | x
  · cases h1 : y1.risk_level <;> cases h2 : y2.risk_level <;>
      simp_all [calculateOverallLevel, RiskLevel.idx, riskOfIdx]
  · rw [overallLevel_both, overallLevel_both, riskOfIdx_idx, riskOfIdx_idx]
    omega

/-- C5: the aggregated risk is monotonic — adding a risk factor to the
hypertension sub-assessment (raising the factor count in its stratification
rule) never lowers its level, and raising either sub-assessment's level
never lowers the overall level computed by `_calculate_overall_risk`. -/
theorem overall_risk_monotone :
    (∀ (g : BPGrade) (tod cc : Bool) (m n : Nat), m ≤ n →
        (htRiskLevel g m tod cc).idx ≤ (htRiskLevel g n tod cc).idx)
    ∧ (∀ (x1 x2 : HTRisk) (y : Option DMRisk),
        x1.risk_level.idx ≤ x2.risk_level.idx →
        (calculateOverallLevel (some x1) y).idx ≤ (calculateOverallLevel (some x2) y).idx)
    ∧ (∀ (x : Option HTRisk) (y1 y2 : DMRisk),
        y1.risk_level.idx ≤ y2.risk_level.idx →
        (calculateOverallLevel x (some y1)).idx ≤ (calculateOverallLevel x (some y2)).idx) :=
  ⟨fun g tod cc _ _ hmn => htRiskLevel_mono g tod cc hmn,
   overall_mono_left, overall_mono_right⟩

/-- C5 witness: one factor added at grade 1, no organ damage. -/
theorem overall_risk_monotone_witness :
    (htRiskLevel BPGrade.grade1 0 false false).idx
      ≤ (htRiskLevel BPGrade.grade1 1 false false).idx :=
  overall_risk_monotone.1 BPGrade.grade1 false false 0 1 (by decide)

/-- C6: for the pregnancy scenario profile (female, 妊娠 diagnosis, 依那普利
medication), `check_all` reports a critical pregnancy contraindication of
class ACEI类 with the fixed non-empty alternative suggestion; and in general,
for every pregnant patient each medication matching the ACEI (resp. ARB)
drug list or substring heuristics contributes its per-medication critical
contraindication finding to the contraindications bucket. -/
theorem pregnancy_contraindication_critical :
    ((checkAll pPregnancy []).contraindications.any fun w =>
        w.ftype = "pregnancy_contraindication" ∧ w.severity = Severity.critical
        ∧ w.drug_class = some "ACEI类" ∧ w.alternative = some pregnancyAlternative) = true
    ∧ (∀ (p : PatientProfile) (recs : List Recommendation) (m : Medication),
        isPregnant p = true → m ∈ p.medications →
        aceiNameMatch (lowerStr m.drug_name) = true →
        pregnancyAceiFinding (lowerStr m.drug_name) ∈ (checkAll p recs).contraindications)
    ∧ (∀ (p : PatientProfile) (recs : List Recommendation) (m : Medication),
        isPregnant p = true → m ∈ p.medications →
        arbNameMatch (lowerStr m.drug_name) = true →
        pregnancyArbFinding (lowerStr m.drug_name) ∈ (checkAll p recs).contraindications) := by
  refine ⟨by decide, ?_, ?_⟩ <;>
  · intro p recs m hpreg hm hmatch
    simp only [checkAll, List.mem_append]
    left
    simp only [checkPregnancyContraindications, hpreg, not_true, if_false, List.mem_append]
    refine Or.inl (Or.inl ?_)
    refine List.mem_flatMap.mpr ⟨lowerStr m.drug_name, List.mem_map_of_mem _ hm, ?_⟩
    simp [hmatch]

/-- C6 witness: the general ACEI statement applied to the scenario profile
and its single medication. -/
theorem pregnancy_contraindication_critical_witness :
    pregnancyAceiFinding (lowerStr "依那普利")
      ∈ (checkAll pPregnancy []).contraindications :=
  pregnancy_contraindication_critical.2.1 pPregnancy []
    { drug_name := "依那普利", drug_class := "ACEI" }
    (by decide) (by decide) (by decide)

/-- The hypertensive-emergency check emits at most one alert. -/
theorem checkHypertensiveEmergency_len (p : PatientProfile) :
    (checkHypertensiveEmergency p).length ≤ 1 := by
  unfold checkHypertensiveEmergency
  rcases p.hypertension_assessment with _ | ha
  · simp
  · dsimp only
    split_ifs <;> simp_all [sbpEmergencyAlert]

/-- Glucose alerts never carry the hypertensive-emergency type. -/
theorem glucose_countP_ht_zero (p : PatientProfile) :
    (checkGlucoseEmergency p).countP
      (fun a => a.ftype = "hypertensive_emergency") = 0 := by
  unfold checkGlucoseEmergency
  rcases p.diabetes_assessment with _ | da
  · simp
  · dsimp only
    split_ifs <;> decide

/-- C7: `check_all`'s emergency bucket contains at most one alert of type
`hypertensive_emergency`, and when both the sbp and dbp thresholds are
crossed the single emitted alert is the sbp-based one. -/
theorem hypertensive_emergency_at_most_one (p : PatientProfile) (recs : List Recommendation) :
    ((checkAll p recs).emergency_alerts.countP
        (fun a => a.ftype = "hypertensive_emergency")) ≤ 1
    ∧ (∀ ha, p.hypertension_assessment = some ha →
        pyTruthy ha.sbp = true → ha.sbp.getD 0 ≥ emergencySbpThreshold →
        pyTruthy ha.dbp = true → ha.dbp.getD 0 ≥ emergencyDbpThreshold →
        checkHypertensiveEmergency p = [sbpEmergencyAlert]) := by
  constructor
  · simp only [checkAll, List.countP_append]
    have h1 := checkHypertensiveEmergency_len p
    have h2 := glucose_countP_ht_zero p
    have h3 := List.countP_le_length
      (p := fun a : Finding => decide (a.ftype = "hypertensive_emergency"))
      (l := checkHypertensiveEmergency p)
    omega
  · intro ha hha hs1 hs2 hd1 hd2
    simp only [checkHypertensiveEmergency, hha]
    simp [hs1, hs2]
    exact fun _ _ => rfl

/-- C7 witness: sbp=190 and dbp=125 both cross their thresholds, yet only
the sbp-based alert is emitted. -/
theorem hypertensive_emergency_at_most_one_witness :
    checkHypertensiveEmergency pBothThresholds = [sbpEmergencyAlert] :=
  (hypertensive_emergency_at_most_one pBothThresholds []).2
    { haEmptyRecord with sbp := some 190, dbp := some 125 }
    rfl (by decide) (by decide) (by decide) (by decide)

/-- Every follow-up plan carries a non-empty monitoring list. -/
theorem followUpPlan_monitoring_ne_nil (r : RiskLevel) (now : Nat) :
    (generateFollowUpPlan r now).monitoring_items ≠ [] := by
  cases r <;> simp [generateFollowUpPlan]

/-- The lifestyle recommendation is always appended, so the list is never
empty. -/
theorem generateRecommendations_ne_nil (htr : Option HTRisk) (dmr : Option DMRisk) :
    generateRecommendations htr dmr ≠ [] := by
  unfold generateRecommendations
  exact List.append_ne_nil_of_right_ne_nil _ (by simp)

/-- C8: `assess_patient` tolerates missing optional data — absent assessment
records yield `none` sub-results, absent sbp/dbp yield the default
sub-result, and a follow-up plan and a non-empty recommendation list are
produced in every case (the Lean model is a total function, so no execution
path raises). -/
theorem assess_never_fails (p : PatientProfile) (now : Nat) :
    (p.hypertension_assessment = none → (assessPatient p now).hypertension_risk = none)
    ∧ (p.diabetes_assessment = none → (assessPatient p now).diabetes_risk = none)
    ∧ (∀ ha, p.hypertension_assessment = some ha → ha.sbp = none ∨ ha.dbp = none →
        (assessPatient p now).hypertension_risk = some htDefaultResult)
    ∧ (assessPatient p now).recommendations ≠ []
    ∧ (assessPatient p now).follow_up_plan.monitoring_items ≠ [] := by
  refine ⟨?_, ?_, ?_, ?_, ?_⟩
  · intro h; simp [assessPatient, h]
  · intro h; simp [assessPatient, h]
  · intro ha hha hsd
    rcases hsd with h | h
    · simp [assessPatient, hha, assessHypertension, h]
    · rcases hs : ha.sbp with _ | s <;>
        simp [assessPatient, hha, assessHypertension, h, hs]
  · simp only [assessPatient]
    exact generateRecommendations_ne_nil _ _
  · simp only [assessPatient]
    exact followUpPlan_monitoring_ne_nil _ _

/-- C8 witness: the empty profile and the profile whose hypertension record
lacks sbp. -/
theorem assess_never_fails_witness :
    (assessPatient pEmpty 0).hypertension_risk = none
    ∧ (assessPatient pBoth 0).hypertension_risk = some htDefaultResult :=
  ⟨(assess_never_fails pEmpty 0).1 rfl,
   (assess_never_fails pBoth 0).2.2.1 haEmptyRecord rfl (Or.inl rfl)⟩

/-- Stripping the date makes the follow-up plan independent of the
assessment day. -/
theorem stripPlanTime_generate (r : RiskLevel) (a b : Nat) :
    stripPlanTime (generateFollowUpPlan r a) = stripPlanTime (generateFollowUpPlan r b) := by
  cases r <;> rfl

/-- C9: both entry points are deterministic — `check_all` is a pure function
of the profile and recommendations, and two `assess_patient` runs at
different wall-clock instants agree once `assessment_time` and the plan's
`next_visit` date are erased. -/
theorem assessment_deterministic (p : PatientProfile) (recs : List Recommendation)
    (t1 t2 : Nat) :
    checkAll p recs = checkAll p recs
    ∧ stripTime (assessPatient p t1) = stripTime (assessPatient p t2) := by
  refine ⟨rfl, ?_⟩
  simp only [assessPatient, stripTime, RiskAssessment.mk.injEq, true_and, and_true]
  exact stripPlanTime_generate _ _ _

/-- Every finding of the guard's hypertensive-emergency check has type
`hypertensive_emergency`. -/
theorem checkHyp_types (p : PatientProfile) :
    ∀ w ∈ checkHypertensiveEmergency p, w.ftype = "hypertensive_emergency" := by
  unfold checkHypertensiveEmergency
  rcases p.hypertension_assessment with _ | ha
  · simp
  · intro w hw
    dsimp only at hw
    split_ifs at hw <;> simp_all [sbpEmergencyAlert, dbpEmergencyAlert]

/-- C10: a fasting glucose of 0 (or an absent reading) is below the 3.9
hypoglycemia threshold, yet the truthiness guard `if fasting_glucose and ...`
suppresses every glucose alert: the guard's glucose check returns nothing,
`check_all`'s emergency bucket holds no glucose alert, and
`RiskEngine.check_emergency` emits no hypoglycemia warning. -/
theorem zero_glucose_no_alert (p : PatientProfile) (recs : List Recommendation)
    (da : DiabetesAssessment) (hda : p.diabetes_assessment = some da)
    (hfg : da.fasting_glucose = none ∨ da.fasting_glucose = some 0) :
    checkGlucoseEmergency p = []
    ∧ (∀ w ∈ (checkAll p recs).emergency_alerts,
        w.ftype ≠ "hypoglycemia" ∧ w.ftype ≠ "severe_hyperglycemia")
    ∧ (∀ w ∈ checkEmergency p, w.ftype ≠ "hypoglycemia") := by
  have hempty : checkGlucoseEmergency p = [] := by
    rcases hfg with h | h <;> simp [checkGlucoseEmergency, hda, h, pyTruthy]
  refine ⟨hempty, ?_, ?_⟩
  · intro w hw
    simp only [checkAll] at hw
    rw [hempty, List.append_nil] at hw
    have := checkHyp_types p w hw
    simp [this]
  · intro w hw
    unfold checkEmergency at hw
    rw [hda] at hw
    dsimp only at hw
    have hg : pyTruthy da.fasting_glucose = false := by
      rcases hfg with h | h <;> simp [h, pyTruthy]
    simp only [hg, false_and, if_false, List.append_nil] at hw
    rcases hht : p.hypertension_assessment with _ | ha
    · rw [hht] at hw; simp at hw
    · rw [hht] at hw
      dsimp only at hw
      split_ifs at hw <;> simp_all

/-- C10 witness: the profile whose diabetes record reads fasting_glucose=0
produces no glucose emergency. -/
theorem zero_glucose_no_alert_witness :
    checkGlucoseEmergency pZeroGlucose = [] :=
  (zero_glucose_no_alert pZeroGlucose [] daZeroGlucose rfl (Or.inr rfl)).1
